import Mathlib

/-!
Verification of the dbgee launcher (nullpo-head/dbgee) against its
natural-language specification.  The development shallowly embeds the
relevant parts of the Rust sources:

* src/dbgee/src/debugger.rs   - executable wrapping (wrap_debuggee_binary,
  unwrap_debuggee_binary, check_if_wrapped), the debugger adapters and
  the fork+trace controlled start (fork_exec_stop);
* src/dbgee/src/lib.rs        - debugger auto-detection (detect_debugger,
  build_debugger) and session waiting (wait_pid_exit);
* src/dbgee/src/debugger_terminal.rs - the VSCode request-pipe path
  derivation (VsCode::build_attach_request_fifo_path);
* src/dbgee/src/file_helper.rs - path/executability helpers.

File contents are modelled as lists of characters, the file system as an
association list from paths to files, and machine-level outcomes (fork,
exec, waitpid, kill) as explicit parameters or event lists.
-/

namespace Dbgee

/-- Error kinds, following §7 of the specification: user-input errors,
missing-backend errors, OS failures and internal bugs (the Rust code uses
anyhow errors; messages starting with [BUG] are the internal-bug class). -/
inductive DbgErr where
  | userInput (msg : String)
  | backendMissing (msg : String)
  | osFailure (msg : String)
  | internalBug (msg : String)
deriving DecidableEq

/-- A regular file on disk: its byte content (modelled as characters) and its
Unix mode bits. -/
structure FsFile where
  content : List Char
  mode : Nat
deriving DecidableEq

/-- The file system: an association list from absolute paths to regular files.
Directories and symlinks are not modelled; paths act as canonical names. -/
def Fs : Type := List (String × FsFile)

/-- Look a path up in the file system. -/
def fsLookup : Fs → String → Option FsFile
  | [], _ => none
  | (q, f) :: rest, p => if q = p then some f else fsLookup rest p

/-- Remove a path (fs::remove_file; also used to implement overwriting). -/
def fsRemove : Fs → String → Fs
  | [], _ => []
  | (q, f) :: rest, p => if q = p then fsRemove rest p else (q, f) :: fsRemove rest p

/-- Create or overwrite the file at a path. -/
def fsSet (fs : Fs) (p : String) (f : FsFile) : Fs :=
  (p, f) :: fsRemove fs p

/-- file_helper.rs is_executable: the path names a regular file and at least
one of the 0o111 (= 73) execute bits is set. -/
def is_executable (fs : Fs) (p : String) : Bool :=
  match fsLookup fs p with
  | some f => decide (f.mode &&& 73 ≠ 0)
  | none => false

/-- file_helper.rs get_abspath: canonicalization, which fails with a
user-input error if the path does not exist.  Paths are already canonical
names in this model, so canonicalization is the identity on existing paths. -/
def get_abspath (fs : Fs) (p : String) : Except DbgErr String :=
  if (fsLookup fs p).isSome then Except.ok p
  else Except.error (DbgErr.userInput (p ++ " does not exist."))

/-- file_helper.rs get_valid_executable_path: canonicalize, then require the
execute permission. -/
def get_valid_executable_path (fs : Fs) (p : String) : Except DbgErr String :=
  match get_abspath fs p with
  | Except.error e => Except.error e
  | Except.ok abspath =>
    if is_executable fs abspath then Except.ok abspath
    else Except.error (DbgErr.userInput (abspath ++ " is not executable"))

/-- Split a character list at every occurrence of a separator; the result is
always non-empty and the separators are not kept (the splitting underlying
Rust str::lines and BufRead::lines). -/
def splitOnChar (sep : Char) : List Char → List (List Char)
  | [] => [[]]
  | c :: rest =>
    if c = sep then [] :: splitOnChar sep rest
    else
      match splitOnChar sep rest with
      | [] => [[c]]
      | h :: t => (c :: h) :: t

/-- Drop one trailing carriage return (the CRLF handling of Rust lines). -/
def stripTrailingCR (l : List Char) : List Char :=
  if l.getLast? = some '\r' then l.dropLast else l

/-- Rust lines(): split on a newline, strip a carriage return from each
newline-terminated segment and drop the empty segment that a trailing
newline produces. -/
def rustLines (s : List Char) : List (List Char) :=
  (splitOnChar '\n' s).dropLast.map stripTrailingCR ++
    (match (splitOnChar '\n' s).getLast? with
     | some [] => []
     | some l => [l]
     | none => [])

/-- Concatenate line contents, as the Rust collect::<String>() over lines
does (no separators are re-inserted). -/
def joinLines (ls : List (List Char)) : List Char := ls.flatten

/-- One pass of Rust str::replace: scan left to right, replace each
non-overlapping occurrence of the (non-empty) pattern.  The skip counter
consumes the remaining characters of a matched occurrence. -/
def replaceGo (pat rep : List Char) : Nat → List Char → List Char
  | _, [] => []
  | Nat.succ skip, _ :: rest => replaceGo pat rep skip rest
  | 0, c :: rest =>
    if pat.isPrefixOf (c :: rest) then rep ++ replaceGo pat rep (pat.length - 1) rest
    else c :: replaceGo pat rep 0 rest

/-- Rust s.replace(pat, rep). -/
def rustReplace (s pat rep : List Char) : List Char :=
  replaceGo pat rep 0 s

/-- First signature line of the bundled wrapper template. -/
def wrapper_sig_line1 : List Char := "#!/bin/sh".data

/-- Second signature line of the bundled wrapper template. -/
def wrapper_sig_line2 : List Char := "# a wrapper script generated by dbgee".data

/-- Body of the bundled wrapper template, holding the two substitution
tokens. -/
def wrapper_body : List Char := "%run_cmd% %debuggee% \"$@\"\n".data

/-- Modelled from the spec: the bundled file resources/wrapper.sh is not under
src/ (debugger.rs only embeds it via include_bytes).  §6 of the spec describes
it as a shell script with a fixed two-line header used as the signature whose
body holds the tokens %run_cmd% and %debuggee%; the two header lines are the
ones the unit test test_check_if_wrapperd_by_strings requires the signature
check to accept. -/
def wrapper_sh_template : List Char :=
  wrapper_sig_line1 ++ '\n' :: (wrapper_sig_line2 ++ '\n' :: wrapper_body)

/-- debugger.rs check_if_wrapped, lines 537-555: the concatenation of the
first two lines of the template. -/
def wrapper_signature : List Char :=
  joinLines ((rustLines wrapper_sh_template).take 2)

/-- debugger.rs check_if_wrapped: a file is a shim iff it can be opened and
the concatenation of its first two lines equals the signature; an unreadable
path yields false. -/
def check_if_wrapped (fs : Fs) (p : String) : Bool :=
  match fsLookup fs p with
  | none => false
  | some f => decide (joinLines ((rustLines f.content).take 2) = wrapper_signature)

/-- debugger.rs get_debuggee_backup_name. -/
def get_debuggee_backup_name (debuggee_filename : String) : String :=
  debuggee_filename ++ "-original"

/-- The mode bits fs::write gives a freshly created file (0o644 under the
default umask); wrap_debuggee_binary overwrites them immediately with
set_permissions, so the exact value is never observable. -/
def default_write_mode : Nat := 420

/-- debugger.rs wrap_debuggee_binary, lines 473-507: refuse if already a shim,
resolve the target, instantiate the template, rename the target to its
-original sibling, write the shim and restore the recorded mode bits.
Errors carry the file system at the moment of failure. -/
def wrap_debuggee_binary (fs : Fs) (debuggee : String) (run_command : List Char) :
    Except (DbgErr × Fs) Fs :=
  if check_if_wrapped fs debuggee then
    Except.error
      (DbgErr.userInput (debuggee ++ " is already wrapped by dbgee. Did you set it already?"), fs)
  else
    match get_valid_executable_path fs debuggee with
    | Except.error e => Except.error (e, fs)
    | Except.ok debuggee_path =>
      let wrapper_sh :=
        rustReplace (rustReplace wrapper_sh_template ("%run_cmd%".data) run_command)
          ("%debuggee%".data) ('\"' :: debuggee_path.data ++ ['\"'])
      let debuggee_backup := get_debuggee_backup_name debuggee_path
      match fsLookup fs debuggee_path with
      | none => Except.error (DbgErr.osFailure "metadata failed", fs)
      | some orig =>
        let fs1 := fsSet (fsRemove fs debuggee_path) debuggee_backup orig
        let fs2 := fsSet fs1 debuggee_path ⟨wrapper_sh, default_write_mode⟩
        let fs3 := fsSet fs2 debuggee_path ⟨wrapper_sh, orig.mode⟩
        Except.ok fs3

/-- debugger.rs unwrap_debuggee_binary, lines 509-535: resolve the target,
refuse unless it is a shim, delete the shim and rename the -original sibling
back.  Errors carry the file system at the moment of failure. -/
def unwrap_debuggee_binary (fs : Fs) (debuggee : String) : Except (DbgErr × Fs) Fs :=
  match get_valid_executable_path fs debuggee with
  | Except.error e => Except.error (e, fs)
  | Except.ok wrapper_path =>
    if ¬ check_if_wrapped fs debuggee then
      Except.error
        (DbgErr.userInput (debuggee ++ " is not wrapped by dbgee. Did you unset it already?"), fs)
    else
      let debuggee_path := get_debuggee_backup_name wrapper_path
      let fs1 := fsRemove fs wrapper_path
      match fsLookup fs1 debuggee_path with
      | none => Except.error (DbgErr.osFailure "rename failed", fs1)
      | some orig => Except.ok (fsSet (fsRemove fs1 debuggee_path) wrapper_path orig)

/-! ### File-system and string lemmas -/

theorem fsLookup_fsRemove (fs : Fs) (p q : String) :
    fsLookup (fsRemove fs p) q = if p = q then none else fsLookup fs q := by
  induction fs with
  | nil => simp [fsRemove, fsLookup]
  | cons hd tl ih =>
    obtain ⟨r, f⟩ := hd
    by_cases hrp : r = p
    · subst hrp
      by_cases hpq : r = q
      · subst hpq
        simp [fsRemove, fsLookup, ih]
      · simp [fsRemove, fsLookup, hpq, ih]
    · by_cases hrq : r = q
      · subst hrq
        simp [fsRemove, fsLookup, hrp, ih]
        intro h
        exact absurd h.symm hrp
      · simp [fsRemove, fsLookup, hrp, hrq, ih]

theorem fsLookup_fsSet (fs : Fs) (p q : String) (f : FsFile) :
    fsLookup (fsSet fs p f) q = if p = q then some f else fsLookup fs q := by
  by_cases hpq : p = q
  · subst hpq
    simp [fsSet, fsLookup]
  · simp [fsSet, fsLookup, hpq, fsLookup_fsRemove]

theorem backup_name_ne (p : String) : get_debuggee_backup_name p ≠ p := by
  intro h
  have hlen := congrArg String.length h
  rw [get_debuggee_backup_name, String.length_append] at hlen
  have h9 : ("-original" : String).length = 9 := rfl
  omega

/-- A pattern that starts with a percent sign matches nowhere inside a
percent-free prefix, so replacement commutes with that prefix. -/
theorem replaceGo_append_of_not_mem (pt rep hdr t : List Char) (hh : '%' ∉ hdr) :
    replaceGo ('%' :: pt) rep 0 (hdr ++ t) = hdr ++ replaceGo ('%' :: pt) rep 0 t := by
  induction hdr with
  | nil => simp
  | cons c hdr ih =>
    have hc : c ≠ '%' := by
      intro h
      exact hh (by simp [h])
    have hmem : '%' ∉ hdr := by
      intro h
      exact hh (List.mem_cons_of_mem _ h)
    have hpre : ¬ (('%' :: pt).isPrefixOf (c :: (hdr ++ t)) = true) := by
      intro h
      simp only [List.isPrefixOf] at h
      have hand := (Bool.and_eq_true _ _).mp h
      exact hc (eq_of_beq hand.1).symm
    simp only [List.cons_append, replaceGo, List.append_eq]
    rw [if_neg hpre, ih hmem]

theorem splitOnChar_ne_nil (sep : Char) (s : List Char) : splitOnChar sep s ≠ [] := by
  cases s with
  | nil => simp [splitOnChar]
  | cons c rest =>
    rw [splitOnChar]
    by_cases hc : c = sep
    · simp [hc]
    · simp only [hc, if_false]
      cases h : splitOnChar sep rest with
      | nil => simp
      | cons h t => simp

theorem splitOnChar_append (sep : Char) (a rest : List Char) (ha : sep ∉ a) :
    splitOnChar sep (a ++ sep :: rest) = a :: splitOnChar sep rest := by
  induction a with
  | nil => simp [splitOnChar]
  | cons c a ih =>
    have hc : c ≠ sep := by
      intro h
      exact ha (by simp [h])
    have hmem : sep ∉ a := by
      intro h
      exact ha (List.mem_cons_of_mem _ h)
    rw [List.cons_append, splitOnChar, if_neg hc, ih hmem]

/-- The first two lines of text that starts with two complete newline-free
lines are those two lines, whatever follows. -/
theorem rustLines_take_two (l1 l2 X : List Char) (h1 : '\n' ∉ l1) (h2 : '\n' ∉ l2) :
    (rustLines (l1 ++ '\n' :: (l2 ++ '\n' :: X))).take 2 =
      [stripTrailingCR l1, stripTrailingCR l2] := by
  rw [rustLines, splitOnChar_append _ _ _ h1, splitOnChar_append _ _ _ h2]
  obtain ⟨h, t, ht⟩ : ∃ h t, splitOnChar '\n' X = h :: t := by
    cases hX : splitOnChar '\n' X with
    | nil => exact absurd hX (splitOnChar_ne_nil _ _)
    | cons h t => exact ⟨h, t, rfl⟩
  rw [ht]
  simp [List.dropLast, List.take]

theorem wrapper_signature_eq :
    wrapper_signature = wrapper_sig_line1 ++ wrapper_sig_line2 := by
  rw [wrapper_signature, wrapper_sh_template,
    rustLines_take_two _ _ _ (by decide) (by decide)]
  have hs1 : stripTrailingCR wrapper_sig_line1 = wrapper_sig_line1 := by decide
  have hs2 : stripTrailingCR wrapper_sig_line2 = wrapper_sig_line2 := by decide
  simp [joinLines, hs1, hs2]

/-- Substituting the two tokens leaves the two-line header of the template
intact: the instantiated shim still carries the wrapper signature, for any
run command and any quoted debuggee path. -/
theorem shim_signature_preserved (C q : List Char) :
    joinLines ((rustLines
      (rustReplace (rustReplace wrapper_sh_template ("%run_cmd%".data) C)
        ("%debuggee%".data) q)).take 2) = wrapper_signature := by
  have hdrq : '%' ∉ wrapper_sig_line1 ++ '\n' :: (wrapper_sig_line2 ++ ['\n']) := by decide
  have htemplate :
      wrapper_sh_template =
        (wrapper_sig_line1 ++ '\n' :: (wrapper_sig_line2 ++ ['\n'])) ++ wrapper_body := by
    simp [wrapper_sh_template, List.append_assoc]
  have hrc : ("%run_cmd%".data) = '%' :: "run_cmd%".data := rfl
  have hdq : ("%debuggee%".data) = '%' :: "debuggee%".data := rfl
  rw [htemplate, rustReplace, rustReplace, hrc, hdq,
    replaceGo_append_of_not_mem _ _ _ _ hdrq,
    replaceGo_append_of_not_mem _ _ _ _ hdrq]
  have hassoc :
      ∀ X : List Char,
        (wrapper_sig_line1 ++ '\n' :: (wrapper_sig_line2 ++ ['\n'])) ++ X =
          wrapper_sig_line1 ++ '\n' :: (wrapper_sig_line2 ++ '\n' :: X) := by
    intro X
    simp [List.append_assoc]
  rw [hassoc, rustLines_take_two _ _ _ (by decide) (by decide)]
  have hs1 : stripTrailingCR wrapper_sig_line1 = wrapper_sig_line1 := by decide
  have hs2 : stripTrailingCR wrapper_sig_line2 = wrapper_sig_line2 := by decide
  simp [joinLines, hs1, hs2, wrapper_signature_eq]

theorem gvep_ok_eq (fs : Fs) (p a : String)
    (h : get_valid_executable_path fs p = Except.ok a) : a = p := by
  unfold get_valid_executable_path get_abspath at h
  by_cases hl : (fsLookup fs p).isSome
  · simp only [hl, if_true] at h
    by_cases he : is_executable fs p = true
    · simp [he] at h
      exact h.symm
    · simp [he] at h
  · simp [hl] at h

theorem gvep_error_userInput (fs : Fs) (p : String) (e : DbgErr)
    (h : get_valid_executable_path fs p = Except.error e) : ∃ m, e = DbgErr.userInput m := by
  unfold get_valid_executable_path get_abspath at h
  by_cases hl : (fsLookup fs p).isSome
  · simp only [hl, if_true] at h
    by_cases he : is_executable fs p = true
    · simp [he] at h
    · simp [he] at h
      exact ⟨_, h.symm⟩
  · simp [hl] at h
    exact ⟨_, h.symm⟩

/-! ### C1, C2, C3, C10: executable wrapping -/

/-- The shim script wrap_debuggee_binary writes: the template with the two
token substitutions applied. -/
def shim_content (P : String) (C : List Char) : List Char :=
  rustReplace (rustReplace wrapper_sh_template ("%run_cmd%".data) C)
    ("%debuggee%".data) ('\"' :: P.data ++ ['\"'])

/-- The file system resulting from a successful wrap_debuggee_binary. -/
def wrapped_fs (fs : Fs) (P : String) (C : List Char) (orig : FsFile) : Fs :=
  fsSet (fsSet (fsSet (fsRemove fs P) (get_debuggee_backup_name P) orig) P
    ⟨shim_content P C, default_write_mode⟩) P ⟨shim_content P C, orig.mode⟩

/-- C1: for a path that names a regular executable file that is not currently
a shim, wrap_debuggee_binary (with any command string) followed by
unwrap_debuggee_binary succeeds and restores the file at that path
byte-for-byte together with its mode bits. -/
theorem wrap_unwrap_roundtrip (fs : Fs) (P : String) (C : List Char) (orig : FsFile)
    (hlook : fsLookup fs P = some orig) (hexec : orig.mode &&& 73 ≠ 0)
    (hnotshim : check_if_wrapped fs P = false) :
    ∃ fsw fsr, wrap_debuggee_binary fs P C = Except.ok fsw ∧
      unwrap_debuggee_binary fsw P = Except.ok fsr ∧
      fsLookup fsr P = some orig := by
  have hsome : (fsLookup fs P).isSome := by rw [hlook]; rfl
  have habs : get_abspath fs P = Except.ok P := by rw [get_abspath, if_pos hsome]
  have hisexec : is_executable fs P = true := by
    rw [is_executable, hlook]
    exact decide_eq_true hexec
  have hgvep : get_valid_executable_path fs P = Except.ok P := by
    simp only [get_valid_executable_path, habs, hisexec, if_true]
  have hPbk : P ≠ get_debuggee_backup_name P := fun h => backup_name_ne P h.symm
  have hwrap : wrap_debuggee_binary fs P C = Except.ok (wrapped_fs fs P C orig) := by
    simp only [wrap_debuggee_binary, hnotshim, Bool.false_eq_true, if_false, hgvep, hlook,
      wrapped_fs, shim_content]
  have hlookw : fsLookup (wrapped_fs fs P C orig) P = some ⟨shim_content P C, orig.mode⟩ := by
    rw [wrapped_fs, fsLookup_fsSet, if_pos rfl]
  have habsw : get_abspath (wrapped_fs fs P C orig) P = Except.ok P := by
    rw [get_abspath, if_pos (by rw [hlookw]; rfl)]
  have hisexecw : is_executable (wrapped_fs fs P C orig) P = true := by
    rw [is_executable, hlookw]
    exact decide_eq_true hexec
  have hgvepw : get_valid_executable_path (wrapped_fs fs P C orig) P = Except.ok P := by
    simp only [get_valid_executable_path, habsw, hisexecw, if_true]
  have hwrapped : check_if_wrapped (wrapped_fs fs P C orig) P = true := by
    rw [check_if_wrapped, hlookw]
    exact decide_eq_true (shim_signature_preserved C _)
  have hlookbk :
      fsLookup (fsRemove (wrapped_fs fs P C orig) P) (get_debuggee_backup_name P) =
        some orig := by
    rw [fsLookup_fsRemove, if_neg hPbk, wrapped_fs, fsLookup_fsSet, if_neg hPbk,
      fsLookup_fsSet, if_neg hPbk, fsLookup_fsSet, if_pos rfl]
  have hunwrap : unwrap_debuggee_binary (wrapped_fs fs P C orig) P =
      Except.ok (fsSet (fsRemove (fsRemove (wrapped_fs fs P C orig) P)
        (get_debuggee_backup_name P)) P orig) := by
    simp only [unwrap_debuggee_binary, hgvepw, hwrapped, not_true, Bool.true_eq_false,
      if_false, hlookbk]
  exact ⟨_, _, hwrap, hunwrap, by rw [fsLookup_fsSet, if_pos rfl]⟩

def c1_fs : Fs := [("/bin/hello", ⟨"ELF binary".data, 493⟩)]

/-- Witness for C1 at a concrete one-file file system holding a mode-0755
executable. -/
theorem wrap_unwrap_roundtrip_witness :
    ∃ fsw fsr, wrap_debuggee_binary c1_fs "/bin/hello" ("run".data) = Except.ok fsw ∧
      unwrap_debuggee_binary fsw "/bin/hello" = Except.ok fsr ∧
      fsLookup fsr "/bin/hello" = some ⟨"ELF binary".data, 493⟩ :=
  wrap_unwrap_roundtrip c1_fs "/bin/hello" ("run".data) ⟨"ELF binary".data, 493⟩
    (by decide) (by decide) (by decide)

/-- C2: wrap_debuggee_binary on a path that is already a shim, and
unwrap_debuggee_binary on a path that is not a shim, fail with a user-input
error and leave the file system (in particular the path and its -original
sibling) unchanged. -/
theorem double_wrap_unwrap_user_error (fs : Fs) (p : String) (c : List Char) :
    (check_if_wrapped fs p = true →
      ∃ m, wrap_debuggee_binary fs p c = Except.error (DbgErr.userInput m, fs)) ∧
    (check_if_wrapped fs p = false →
      ∃ m, unwrap_debuggee_binary fs p = Except.error (DbgErr.userInput m, fs)) := by
  constructor
  · intro h
    exact ⟨_, by rw [wrap_debuggee_binary, if_pos h]⟩
  · intro h
    cases hg : get_valid_executable_path fs p with
    | error e =>
      obtain ⟨m, hm⟩ := gvep_error_userInput fs p e hg
      refine ⟨m, ?_⟩
      simp only [unwrap_debuggee_binary, hg, hm]
    | ok wp =>
      have hwp : wp = p := gvep_ok_eq fs p wp hg
      subst hwp
      refine ⟨wp ++ " is not wrapped by dbgee. Did you unset it already?", ?_⟩
      simp only [unwrap_debuggee_binary, hg, h, Bool.false_eq_true, not_false_iff, if_true]

def c2_wrapped_fs : Fs :=
  [("/w", ⟨wrapper_sig_line1 ++ '\n' :: wrapper_sig_line2, 493⟩)]

def c2_plain_fs : Fs := [("/p", ⟨"ELF binary".data, 493⟩)]

/-- Witness for C2: a concrete already-wrapped file rejects a second wrap and
a concrete plain executable rejects unwrap, leaving both file systems
untouched. -/
theorem double_wrap_unwrap_user_error_witness :
    (∃ m, wrap_debuggee_binary c2_wrapped_fs "/w" [] =
      Except.error (DbgErr.userInput m, c2_wrapped_fs)) ∧
    (∃ m, unwrap_debuggee_binary c2_plain_fs "/p" =
      Except.error (DbgErr.userInput m, c2_plain_fs)) :=
  ⟨(double_wrap_unwrap_user_error c2_wrapped_fs "/w" []).1 (by decide),
   (double_wrap_unwrap_user_error c2_plain_fs "/p" []).2 (by decide)⟩

def c3_fs : Fs := [("/x", ⟨wrapper_sig_line1 ++ wrapper_sig_line2, 493⟩)]

/-- C3 counterexample: check_if_wrapped compares the *concatenation* of the
first two lines against the concatenated template header, so a one-line file
equal to that concatenation is detected as a shim even though its first two
lines differ from the template's first two lines.  This refutes the claim
that detection returns true iff the first two lines are equal. -/
theorem check_if_wrapped_concat_counterexample :
    check_if_wrapped c3_fs "/x" = true ∧
    (rustLines (wrapper_sig_line1 ++ wrapper_sig_line2)).take 2 ≠
      (rustLines wrapper_sh_template).take 2 := by decide

/-- C3 (amended): check_if_wrapped returns true iff the file is readable and
the concatenation of its first two lines equals the concatenation of the
first two lines of the bundled template; no other evidence is consulted. -/
theorem check_if_wrapped_iff_concat_signature (fs : Fs) (p : String) :
    check_if_wrapped fs p = true ↔
      ∃ f, fsLookup fs p = some f ∧
        joinLines ((rustLines f.content).take 2) =
          joinLines ((rustLines wrapper_sh_template).take 2) := by
  rw [check_if_wrapped]
  cases h : fsLookup fs p with
  | none => simp [h]
  | some f => simp [h, wrapper_signature]

/-- Witness for C3 (amended) at a concrete wrapped file. -/
theorem check_if_wrapped_iff_concat_signature_witness :
    check_if_wrapped c2_wrapped_fs "/w" = true ∧
    ∃ f, fsLookup c2_wrapped_fs "/w" = some f ∧
      joinLines ((rustLines f.content).take 2) =
        joinLines ((rustLines wrapper_sh_template).take 2) :=
  ⟨by decide, (check_if_wrapped_iff_concat_signature c2_wrapped_fs "/w").mp (by decide)⟩

/-- C10: a path that cannot be opened for reading is never classified as a
shim; check_if_wrapped returns false instead of raising an error. -/
theorem check_if_wrapped_unreadable (fs : Fs) (p : String)
    (h : fsLookup fs p = none) : check_if_wrapped fs p = false := by
  rw [check_if_wrapped, h]

/-- Witness for C10: the empty file system holds no file at all. -/
theorem check_if_wrapped_unreadable_witness :
    fsLookup ([] : Fs) "/nonexistent" = none ∧
      check_if_wrapped ([] : Fs) "/nonexistent" = false :=
  ⟨rfl, check_if_wrapped_unreadable [] "/nonexistent" rfl⟩

/-! ### Debugger adapters (debugger.rs)

Each adapter is a structure holding exactly the option-valued state the Rust
struct holds; run's externally determined outcomes (path resolution, the
controlled start or server spawn, opening the terminal) are passed as
explicit parameters, and run returns the mutated adapter together with its
result. -/

/-- debugger.rs AttachInformationKey. -/
inductive AttachInformationKey where
  | DebuggerTypeHint
  | Pid
  | DebuggerPort
  | ProgramName
deriving DecidableEq

/-- Lookup in the attach-information map (modelled as an association list). -/
def infoLookup : List (AttachInformationKey × String) → AttachInformationKey → Option String
  | [], _ => none
  | (k, v) :: rest, key => if k = key then some v else infoLookup rest key

/-- debugger.rs GdbCompatibleDebugger: name, optional debuggee PID and path,
and the command-line builder closure installed by GdbDebugger::build or
LldbDebugger::build. -/
structure GdbCompatibleDebugger where
  debugger_name : String
  debuggee_pid : Option Int
  debuggee_path : Option String
  commandline_builder : Int → String → Except DbgErr (List String)

/-- The closure GdbDebugger::build installs. -/
def gdb_command_builder (pid : Int) (_name : String) : Except DbgErr (List String) :=
  Except.ok ["gdb", "-tui", "-p", toString pid]

/-- The closure LldbDebugger::build installs. -/
def lldb_command_builder (pid : Int) (_name : String) : Except DbgErr (List String) :=
  Except.ok ["lldb", "-p", toString pid]

/-- GdbCompatibleDebugger::run: resolve the debuggee, controlled-start it,
record PID and path, then open the terminal. -/
def GdbCompatibleDebugger.run (d : GdbCompatibleDebugger)
    (resolved : Except DbgErr String) (stopped : Except DbgErr Int)
    (terminal_open : Except DbgErr Unit) :
    GdbCompatibleDebugger × Except DbgErr Int :=
  match resolved with
  | Except.error e => (d, Except.error e)
  | Except.ok abspath =>
    match stopped with
    | Except.error e => (d, Except.error e)
    | Except.ok pid =>
      let d2 := { d with debuggee_pid := some pid, debuggee_path := some abspath }
      match terminal_open with
      | Except.error e => (d2, Except.error e)
      | Except.ok _ => (d2, Except.ok pid)

/-- GdbCompatibleDebugger::build_attach_commandline, debugger.rs lines
131-139: unwrap the PID and path with an internal-bug diagnostic, then call
the builder. -/
def GdbCompatibleDebugger.build_attach_commandline (d : GdbCompatibleDebugger) :
    Except DbgErr (List String) :=
  match d.debuggee_pid with
  | none => Except.error (DbgErr.internalBug "uninitialized GdbCompatibleDebugger")
  | some pid =>
    match d.debuggee_path with
    | none => Except.error (DbgErr.internalBug "uninitialized GdbCompatibleDebugger")
    | some path => d.commandline_builder pid path

/-- GdbCompatibleDebugger::build_attach_information, lines 141-167. -/
def GdbCompatibleDebugger.build_attach_information (d : GdbCompatibleDebugger) :
    Except DbgErr (List (AttachInformationKey × String)) :=
  match d.debuggee_pid with
  | none => Except.error (DbgErr.internalBug "uninitialized GdbCompatibleDebugger")
  | some pid =>
    match d.debuggee_path with
    | none => Except.error (DbgErr.internalBug "uninitialized GdbCompatibleDebugger")
    | some path =>
      Except.ok [(AttachInformationKey.DebuggerTypeHint, d.debugger_name),
        (AttachInformationKey.Pid, toString pid),
        (AttachInformationKey.ProgramName, path)]

/-- debugger.rs DelveDebugger: only the optional server port. -/
structure DelveDebugger where
  port : Option Int

/-- DelveDebugger::run: resolve the debuggee, set port 5679, spawn the dlv
server, open the terminal.  The port assignment happens before the spawn, so
a failed spawn still leaves the port set. -/
def DelveDebugger.run (d : DelveDebugger) (resolved : Except DbgErr String)
    (spawn : Except DbgErr Int) (terminal_open : Except DbgErr Unit) :
    DelveDebugger × Except DbgErr Int :=
  match resolved with
  | Except.error e => (d, Except.error e)
  | Except.ok _ =>
    let d2 : DelveDebugger := ⟨some 5679⟩
    match spawn with
    | Except.error e => (d2, Except.error e)
    | Except.ok pid =>
      match terminal_open with
      | Except.error e => (d2, Except.error e)
      | Except.ok _ => (d2, Except.ok pid)

/-- DelveDebugger::build_attach_commandline, lines 231-241. -/
def DelveDebugger.build_attach_commandline (d : DelveDebugger) :
    Except DbgErr (List String) :=
  match d.port with
  | none => Except.error (DbgErr.internalBug "uninitialized DelveDebugger")
  | some port => Except.ok ["dlv", "connect", "localhost:" ++ toString port]

/-- DelveDebugger::build_attach_information, lines 243-253. -/
def DelveDebugger.build_attach_information (d : DelveDebugger) :
    Except DbgErr (List (AttachInformationKey × String)) :=
  match d.port with
  | none => Except.error (DbgErr.internalBug "uninitialized DelveDebugger")
  | some port =>
    Except.ok [(AttachInformationKey.DebuggerTypeHint, "go"),
      (AttachInformationKey.DebuggerPort, toString port)]

/-- debugger.rs PythonDebugger: the chosen python command and the optional
port. -/
structure PythonDebugger where
  python_command : String
  port : Option Int

/-- PythonDebugger::run: set port 5679 first, spawn debugpy, then open the
VSCode terminal (any requested terminal is overridden). -/
def PythonDebugger.run (d : PythonDebugger) (spawn : Except DbgErr Int)
    (vscode_open : Except DbgErr Unit) : PythonDebugger × Except DbgErr Int :=
  let d2 := { d with port := some 5679 }
  match spawn with
  | Except.error e => (d2, Except.error e)
  | Except.ok pid =>
    match vscode_open with
    | Except.error e => (d2, Except.error e)
    | Except.ok _ => (d2, Except.ok pid)

/-- PythonDebugger::build_attach_commandline, lines 386-388: always an
internal-bug error, whatever the adapter state. -/
def PythonDebugger.build_attach_commandline (_d : PythonDebugger) :
    Except DbgErr (List String) :=
  Except.error
    (DbgErr.internalBug "build_attach_commandline should not be called for PythonDebugger")

/-- PythonDebugger::build_attach_information, lines 390-402. -/
def PythonDebugger.build_attach_information (d : PythonDebugger) :
    Except DbgErr (List (AttachInformationKey × String)) :=
  match d.port with
  | none => Except.error (DbgErr.internalBug "PythonDebugger.port is not initializaed")
  | some port =>
    Except.ok [(AttachInformationKey.DebuggerTypeHint, "python"),
      (AttachInformationKey.DebuggerPort, toString port)]

/-- debugger.rs StopAndWritePidDebugger: a stateless adapter. -/
structure StopAndWritePidDebugger where

/-- StopAndWritePidDebugger::build_attach_commandline, lines 307-309: an
unconditional internal-bug error. -/
def StopAndWritePidDebugger.build_attach_commandline (_d : StopAndWritePidDebugger) :
    Except DbgErr (List String) :=
  Except.error
    (DbgErr.internalBug "build_attach_commandline should not be called for StopAndWritePidDebugger")

/-- StopAndWritePidDebugger::build_attach_information, lines 311-313: an
unconditional internal-bug error. -/
def StopAndWritePidDebugger.build_attach_information (_d : StopAndWritePidDebugger) :
    Except DbgErr (List (AttachInformationKey × String)) :=
  Except.error
    (DbgErr.internalBug "butild_attach_information should not be called for StopAndWritePidDebugger")

/-! Decimal rendering of a machine integer is never the empty string. -/

theorem toDigitsCore_ne_nil (b : Nat) :
    ∀ (f n : Nat) (ds : List Char), ds ≠ [] → Nat.toDigitsCore b f n ds ≠ [] := by
  intro f
  induction f with
  | zero =>
    intro n ds h
    simpa [Nat.toDigitsCore] using h
  | succ f ih =>
    intro n ds h
    rw [Nat.toDigitsCore]
    by_cases hnb : n / b = 0
    · simp [hnb]
    · simp only [hnb, if_false]
      exact ih (n / b) _ (by simp)

theorem toDigits_ne_nil (b n : Nat) : Nat.toDigits b n ≠ [] := by
  rw [Nat.toDigits, Nat.toDigitsCore]
  by_cases hnb : n / b = 0
  · simp [hnb]
  · simp only [hnb, if_false]
    exact toDigitsCore_ne_nil b n (n / b) _ (by simp)

theorem nat_repr_ne_empty (n : Nat) : Nat.repr n ≠ "" := by
  intro h
  have hd : Nat.toDigits 10 n = [] := by
    have hdata := congrArg String.data h
    simpa [Nat.repr, List.asString] using hdata
  exact toDigits_ne_nil 10 n hd

theorem int_toString_ne_empty (i : Int) : toString i ≠ "" := by
  cases i with
  | ofNat m => exact nat_repr_ne_empty m
  | negSucc m =>
    intro h
    have hrepr : toString (Int.negSucc m) = "-" ++ toString (m + 1) := rfl
    rw [hrepr] at h
    have hlen := congrArg String.length h
    rw [String.length_append] at hlen
    have h1 : ("-" : String).length = 1 := rfl
    have h0 : ("" : String).length = 0 := rfl
    omega

/-! ### C4, C5: attach queries after launch -/

/-- C4 counterexample: the debugpy adapter (a variant other than
StopAndWritePid) completes run successfully, yet its attach-command query
fails with an internal-bug error instead of succeeding, refuting the claim
that after a successful launch both queries succeed for every variant except
StopAndWritePid. -/
theorem python_attach_command_fails_after_launch :
    (PythonDebugger.run ⟨"python3", none⟩ (Except.ok 42) (Except.ok ())).2 = Except.ok 42 ∧
    ∃ m, ((PythonDebugger.run ⟨"python3", none⟩ (Except.ok 42) (Except.ok ())).1).build_attach_commandline =
      Except.error (DbgErr.internalBug m) :=
  ⟨rfl, ⟨_, rfl⟩⟩

/-- C4 (amended): after a successful run, the GDB-compatible adapters (whose
builders always succeed) answer both queries with the attach information
holding a non-empty Pid, and Delve answers both queries with a non-empty
DebuggerPort; the debugpy adapter answers the attach-coordinates query with a
non-empty DebuggerPort, but its attach-command query always fails with an
internal-bug error. -/
theorem attach_queries_after_successful_launch :
    (∀ (d d2 : GdbCompatibleDebugger) (resolved : Except DbgErr String)
        (stopped : Except DbgErr Int) (topen : Except DbgErr Unit) (pid : Int),
      (∀ p n, ∃ c, d.commandline_builder p n = Except.ok c) →
      d.run resolved stopped topen = (d2, Except.ok pid) →
      (∃ cmd, d2.build_attach_commandline = Except.ok cmd) ∧
      ∃ info, d2.build_attach_information = Except.ok info ∧
        infoLookup info AttachInformationKey.Pid = some (toString pid) ∧
        toString pid ≠ "") ∧
    (∀ (d d2 : DelveDebugger) (resolved : Except DbgErr String)
        (spawn : Except DbgErr Int) (topen : Except DbgErr Unit) (pid : Int),
      d.run resolved spawn topen = (d2, Except.ok pid) →
      (∃ cmd, d2.build_attach_commandline = Except.ok cmd) ∧
      ∃ info, d2.build_attach_information = Except.ok info ∧
        infoLookup info AttachInformationKey.DebuggerPort = some (toString (5679 : Int)) ∧
        toString (5679 : Int) ≠ "") ∧
    (∀ (d d2 : PythonDebugger) (spawn : Except DbgErr Int)
        (vopen : Except DbgErr Unit) (pid : Int),
      d.run spawn vopen = (d2, Except.ok pid) →
      (∃ m, d2.build_attach_commandline = Except.error (DbgErr.internalBug m)) ∧
      ∃ info, d2.build_attach_information = Except.ok info ∧
        infoLookup info AttachInformationKey.DebuggerPort = some (toString (5679 : Int)) ∧
        toString (5679 : Int) ≠ "") := by
  refine ⟨?_, ?_, ?_⟩
  · intro d d2 resolved stopped topen pid hbuilder hrun
    cases resolved with
    | error e => simp [GdbCompatibleDebugger.run] at hrun
    | ok abspath =>
      cases stopped with
      | error e => simp [GdbCompatibleDebugger.run] at hrun
      | ok pid2 =>
        cases topen with
        | error e => simp [GdbCompatibleDebugger.run] at hrun
        | ok u =>
          simp only [GdbCompatibleDebugger.run, Prod.mk.injEq, Except.ok.injEq] at hrun
          obtain ⟨hd2, hpid⟩ := hrun
          subst hpid
          constructor
          · obtain ⟨c, hc⟩ := hbuilder pid2 abspath
            refine ⟨c, ?_⟩
            rw [← hd2]
            simp [GdbCompatibleDebugger.build_attach_commandline, hc]
          · refine ⟨[(AttachInformationKey.DebuggerTypeHint, d.debugger_name),
              (AttachInformationKey.Pid, toString pid2),
              (AttachInformationKey.ProgramName, abspath)], ?_, ?_,
              int_toString_ne_empty pid2⟩
            · rw [← hd2]
              rfl
            · rfl
  · intro d d2 resolved spawn topen pid hrun
    cases resolved with
    | error e => simp [DelveDebugger.run] at hrun
    | ok abspath =>
      cases spawn with
      | error e => simp [DelveDebugger.run] at hrun
      | ok pid2 =>
        cases topen with
        | error e => simp [DelveDebugger.run] at hrun
        | ok u =>
          simp only [DelveDebugger.run, Prod.mk.injEq, Except.ok.injEq] at hrun
          obtain ⟨hd2, hpid⟩ := hrun
          subst hpid
          refine ⟨⟨["dlv", "connect", "localhost:" ++ toString (5679 : Int)], ?_⟩,
            [(AttachInformationKey.DebuggerTypeHint, "go"),
            (AttachInformationKey.DebuggerPort, toString (5679 : Int))], ?_, ?_,
            int_toString_ne_empty 5679⟩
          · rw [← hd2]
            rfl
          · rw [← hd2]
            rfl
          · rfl
  · intro d d2 spawn vopen pid hrun
    cases spawn with
    | error e => simp [PythonDebugger.run] at hrun
    | ok pid2 =>
      cases vopen with
      | error e => simp [PythonDebugger.run] at hrun
      | ok u =>
        simp only [PythonDebugger.run, Prod.mk.injEq, Except.ok.injEq] at hrun
        obtain ⟨hd2, hpid⟩ := hrun
        subst hpid
        refine ⟨⟨_, rfl⟩, [(AttachInformationKey.DebuggerTypeHint, "python"),
          (AttachInformationKey.DebuggerPort, toString (5679 : Int))], ?_, ?_,
          int_toString_ne_empty 5679⟩
        · rw [← hd2]
          rfl
        · rfl

/-- Witness for C4 (amended): a gdb adapter, a Delve adapter and a debugpy
adapter, each after a concrete successful run. -/
theorem attach_queries_after_successful_launch_witness :
    ((∃ cmd, (GdbCompatibleDebugger.mk "gdb" (some 7) (some "/bin/hello")
        gdb_command_builder).build_attach_commandline = Except.ok cmd) ∧
      ∃ info, (GdbCompatibleDebugger.mk "gdb" (some 7) (some "/bin/hello")
        gdb_command_builder).build_attach_information = Except.ok info ∧
        infoLookup info AttachInformationKey.Pid = some (toString (7 : Int)) ∧
        toString (7 : Int) ≠ "") ∧
    ((∃ cmd, (DelveDebugger.mk (some 5679)).build_attach_commandline = Except.ok cmd) ∧
      ∃ info, (DelveDebugger.mk (some 5679)).build_attach_information = Except.ok info ∧
        infoLookup info AttachInformationKey.DebuggerPort = some (toString (5679 : Int)) ∧
        toString (5679 : Int) ≠ "") ∧
    ((∃ m, (PythonDebugger.mk "python3" (some 5679)).build_attach_commandline =
        Except.error (DbgErr.internalBug m)) ∧
      ∃ info, (PythonDebugger.mk "python3" (some 5679)).build_attach_information =
        Except.ok info ∧
        infoLookup info AttachInformationKey.DebuggerPort = some (toString (5679 : Int)) ∧
        toString (5679 : Int) ≠ "") :=
  ⟨attach_queries_after_successful_launch.1
      (GdbCompatibleDebugger.mk "gdb" none none gdb_command_builder)
      (GdbCompatibleDebugger.mk "gdb" (some 7) (some "/bin/hello") gdb_command_builder)
      (Except.ok "/bin/hello") (Except.ok 7) (Except.ok ())
      7 (fun _p _n => ⟨_, rfl⟩) rfl,
   attach_queries_after_successful_launch.2.1
      (DelveDebugger.mk none) (DelveDebugger.mk (some 5679))
      (Except.ok "/bin/go-hello") (Except.ok 8) (Except.ok ()) 8 rfl,
   attach_queries_after_successful_launch.2.2
      (PythonDebugger.mk "python3" none) (PythonDebugger.mk "python3" (some 5679))
      (Except.ok 9) (Except.ok ()) 9 rfl⟩

/-- C5: for the StopAndWritePid adapter both attach queries fail with an
internal-bug error; the adapter carries no launch state at all, so this holds
whether or not run was ever called. -/
theorem stop_and_write_pid_queries_internal_bug (d : StopAndWritePidDebugger) :
    (∃ m, d.build_attach_commandline = Except.error (DbgErr.internalBug m)) ∧
    (∃ m, d.build_attach_information = Except.error (DbgErr.internalBug m)) :=
  ⟨⟨_, rfl⟩, ⟨_, rfl⟩⟩

/-! ### C6: waiting for the debuggee (lib.rs wait_pid_exit) -/

/-- The errno values the embedded code discriminates on. -/
inductive Errno where
  | eCHILD
  | eSRCH
  | eINTR
  | ePERM
deriving DecidableEq

/-- nix WaitStatus, restricted to the constructors the code matches on;
signals are carried as their numbers. -/
inductive WaitStatus where
  | Exited (pid : Int) (code : Int)
  | Signaled (pid : Int) (signal : Int) (coredump : Bool)
  | Stopped (pid : Int) (signal : Int)
  | PtraceEvent (pid : Int) (signal : Int) (event : Int)
  | Continued (pid : Int)
deriving DecidableEq

/-- One waitpid outcome: a status or an errno. -/
inductive WaitResult where
  | ok (s : WaitStatus)
  | err (e : Errno)
deriving DecidableEq

/-- lib.rs wait_pid_exit, lines 352-368, over the stream of waitpid outcomes:
return the exit status on Exited, the fixed code 130 on Signaled, 0 on an
ECHILD error, and keep looping on anything else (none models a loop that
never sees a deciding event). -/
def wait_pid_exit : List WaitResult → Option Int
  | [] => none
  | r :: rest =>
    match r with
    | WaitResult.ok (WaitStatus.Exited _ code) => some code
    | WaitResult.ok (WaitStatus.Signaled _ _ _) => some 130
    | WaitResult.err Errno.eCHILD => some 0
    | _ => wait_pid_exit rest

/-- The waitpid outcomes that terminate the wait_pid_exit loop. -/
def wait_deciding : WaitResult → Bool
  | WaitResult.ok (WaitStatus.Exited _ _) => true
  | WaitResult.ok (WaitStatus.Signaled _ _ _) => true
  | WaitResult.err Errno.eCHILD => true
  | _ => false

theorem wait_pid_exit_skip (r : WaitResult) (h : wait_deciding r = false)
    (l : List WaitResult) : wait_pid_exit (r :: l) = wait_pid_exit l := by
  cases r with
  | ok s =>
    cases s with
    | Exited p c => simp [wait_deciding] at h
    | Signaled p s cd => simp [wait_deciding] at h
    | Stopped p s => rfl
    | PtraceEvent p s e => rfl
    | Continued p => rfl
  | err e =>
    cases e with
    | eCHILD => simp [wait_deciding] at h
    | eSRCH => rfl
    | eINTR => rfl
    | ePERM => rfl

/-- C6: after any prefix of non-deciding waitpid outcomes, wait_pid_exit
returns the debuggee's own exit code when it exits normally, the fixed code
130 when it is terminated by a signal, and 0 when waitpid reports ECHILD. -/
theorem wait_pid_exit_semantics (pre : List WaitResult)
    (h : ∀ r ∈ pre, wait_deciding r = false) :
    (∀ (rest : List WaitResult) (p c : Int),
      wait_pid_exit (pre ++ WaitResult.ok (WaitStatus.Exited p c) :: rest) = some c) ∧
    (∀ (rest : List WaitResult) (p s : Int) (cd : Bool),
      wait_pid_exit (pre ++ WaitResult.ok (WaitStatus.Signaled p s cd) :: rest) = some 130) ∧
    (∀ rest : List WaitResult,
      wait_pid_exit (pre ++ WaitResult.err Errno.eCHILD :: rest) = some 0) := by
  induction pre with
  | nil => exact ⟨fun rest p c => rfl, fun rest p s cd => rfl, fun rest => rfl⟩
  | cons r pre ih =>
    have hr : wait_deciding r = false := h r (List.mem_cons_self r pre)
    have hpre : ∀ x ∈ pre, wait_deciding x = false :=
      fun x hx => h x (List.mem_cons_of_mem r hx)
    obtain ⟨ih1, ih2, ih3⟩ := ih hpre
    refine ⟨?_, ?_, ?_⟩
    · intro rest p c
      rw [List.cons_append, wait_pid_exit_skip r hr, ih1]
    · intro rest p s cd
      rw [List.cons_append, wait_pid_exit_skip r hr, ih2]
    · intro rest
      rw [List.cons_append, wait_pid_exit_skip r hr, ih3]

/-- Witness for C6: a stop event is skipped, then all three deciding outcomes
return as specified. -/
theorem wait_pid_exit_semantics_witness :
    wait_pid_exit [WaitResult.ok (WaitStatus.Stopped 7 19),
      WaitResult.ok (WaitStatus.Exited 7 3)] = some 3 ∧
    wait_pid_exit [WaitResult.ok (WaitStatus.Stopped 7 19),
      WaitResult.ok (WaitStatus.Signaled 7 9 false)] = some 130 ∧
    wait_pid_exit [WaitResult.ok (WaitStatus.Stopped 7 19),
      WaitResult.err Errno.eCHILD] = some 0 :=
  ⟨(wait_pid_exit_semantics [WaitResult.ok (WaitStatus.Stopped 7 19)]
      (by intro r hr; simp at hr; rw [hr]; rfl)).1 [] 7 3,
   (wait_pid_exit_semantics [WaitResult.ok (WaitStatus.Stopped 7 19)]
      (by intro r hr; simp at hr; rw [hr]; rfl)).2.1 [] 7 9 false,
   (wait_pid_exit_semantics [WaitResult.ok (WaitStatus.Stopped 7 19)]
      (by intro r hr; simp at hr; rw [hr]; rfl)).2.2 []⟩

/-! ### C8: controlled start (debugger.rs fork_exec_stop) -/

/-- The kernel-determined outcomes of one fork_exec_stop invocation: whether
fork succeeds, whether the child's traceme and execv succeed, what the
parent's waitpid observes, and whether kill(SIGSTOP) and ptrace::detach
succeed (none = success, some e = the errno). -/
structure ForkExecWorld where
  fs : Fs
  child_pid : Int
  fork_ok : Bool
  traceme_ok : Bool
  exec_ok : Bool
  wait_result : WaitResult
  kill_result : Option Errno
  detach_result : Option Errno

/-- The child branch of fork_exec_stop, lines 610-622: traceme, then execv;
on exec failure the child bails with an error (the surrounding process then
prints it and exits non-zero).  ok models a successful exec, after which
fork_exec_stop never returns in the child. -/
def fork_exec_stop_child (w : ForkExecWorld) : Except DbgErr Unit :=
  if ¬ w.traceme_ok then Except.error (DbgErr.osFailure "ptrace traceme failed.")
  else if w.exec_ok then Except.ok ()
  else Except.error (DbgErr.osFailure "exec failed.")

/-- The parent branch of fork_exec_stop, lines 623-647: waitpid (any stop
reason other than SIGTRAP only logs a warning and flow continues), then
kill(SIGSTOP), then ptrace::detach, then return the child PID. -/
def fork_exec_stop_parent (w : ForkExecWorld) : Except DbgErr Int :=
  match w.wait_result with
  | WaitResult.err _ =>
    Except.error (DbgErr.osFailure "Unexpected error. Waiting for SIGTRAP failed.")
  | WaitResult.ok _status =>
    match w.kill_result with
    | some _ => Except.error (DbgErr.osFailure "Unexpected error. Sending a signal failed")
    | none =>
      match w.detach_result with
      | some _ => Except.error (DbgErr.osFailure "Unexpected error. Detach and stop failed")
      | none => Except.ok w.child_pid

/-- fork_exec_stop as seen by the parent: validate the debuggee path, fork,
then run the parent branch. -/
def fork_exec_stop (w : ForkExecWorld) (argv0 : String) : Except DbgErr Int :=
  match get_valid_executable_path w.fs argv0 with
  | Except.error e => Except.error e
  | Except.ok _ =>
    if ¬ w.fork_ok then Except.error (DbgErr.osFailure "fork failed.")
    else fork_exec_stop_parent w

/-- C8: when exec fails in the child, the child branch ends in an error (it
prints and aborts), and in the parent - whose waitpid observes the child's
exit and reaps it, making the subsequent kill fail with ESRCH - controlled
start propagates an error instead of returning a PID. -/
theorem exec_failure_propagates (w : ForkExecWorld) (argv0 : String)
    (hexec : w.exec_ok = false)
    (hwait : ∃ code, w.wait_result = WaitResult.ok (WaitStatus.Exited w.child_pid code))
    (hkill : w.kill_result = some Errno.eSRCH) :
    (∃ e, fork_exec_stop_child w = Except.error e) ∧
    (∃ e, fork_exec_stop w argv0 = Except.error e) := by
  constructor
  · rw [fork_exec_stop_child]
    by_cases ht : w.traceme_ok
    · simp [ht, hexec]
    · simp [ht]
  · obtain ⟨code, hw⟩ := hwait
    have hparent : ∃ e, fork_exec_stop_parent w = Except.error e := by
      rw [fork_exec_stop_parent]
      rw [hw, hkill]
      exact ⟨_, rfl⟩
    rw [fork_exec_stop]
    cases hg : get_valid_executable_path w.fs argv0 with
    | error e => exact ⟨e, rfl⟩
    | ok a =>
      by_cases hf : w.fork_ok
      · simpa [hf] using hparent
      · simp [hf]

def c8_world : ForkExecWorld :=
  ⟨[("/bin/missing-interp", ⟨"ELF binary".data, 493⟩)], 7, true, true, false,
    WaitResult.ok (WaitStatus.Exited 7 1), some Errno.eSRCH, none⟩

/-- Witness for C8 at a concrete world where exec fails. -/
theorem exec_failure_propagates_witness :
    (∃ e, fork_exec_stop_child c8_world = Except.error e) ∧
    (∃ e, fork_exec_stop c8_world "/bin/missing-interp" = Except.error e) :=
  exec_failure_propagates c8_world "/bin/missing-interp" rfl ⟨1, rfl⟩ rfl

/-! ### C9: the VSCode request-pipe path
(debugger_terminal.rs VsCode::build_attach_request_fifo_path) -/

/-- Rust Path::file_name on a UTF-8 path: the last component after dropping
empty and current-directory components; none when there is no component left
or the last one is the parent-directory component. -/
def rust_file_name_chars (s : List Char) : Option (List Char) :=
  let comps := (splitOnChar '/' s).filter
    (fun c => ¬ (c = [] ∨ c = ['.']))
  match comps.getLast? with
  | none => none
  | some c => if c = ['.', '.'] then none else some c

/-- VsCode::build_attach_request_fifo_path, debugger_terminal.rs lines
204-220: read VSCODE_GIT_IPC_HANDLE, take the basename, require the .sock
suffix, and build /tmp/dbgee-vscode-debuggee-for- plus the stripped name. -/
def build_attach_request_fifo_path (vscode_git_ipc_handle : Option String) : Option String :=
  match vscode_git_ipc_handle with
  | none => none
  | some v =>
    match rust_file_name_chars v.data with
    | none => none
    | some sock_name =>
      if (".sock".data).isSuffixOf sock_name then
        some (String.mk ("/tmp/dbgee-vscode-debuggee-for-".data ++
          sock_name.take (sock_name.length - 5)))
      else none

/-- C9: the request-pipe path is produced exactly for environment values
whose basename ends in .sock, and is the fixed prefix plus the basename with
the trailing .sock stripped; an absent variable, a basename without the
suffix, or no basename at all produce no path. -/
theorem build_attach_request_fifo_path_spec :
    (∀ (v : String) (sock : List Char), rust_file_name_chars v.data = some sock →
      (".sock".data).isSuffixOf sock = true →
      build_attach_request_fifo_path (some v) =
        some (String.mk ("/tmp/dbgee-vscode-debuggee-for-".data ++
          sock.take (sock.length - 5)))) ∧
    build_attach_request_fifo_path none = none ∧
    (∀ (v : String) (sock : List Char), rust_file_name_chars v.data = some sock →
      (".sock".data).isSuffixOf sock = false →
      build_attach_request_fifo_path (some v) = none) ∧
    (∀ v : String, rust_file_name_chars v.data = none →
      build_attach_request_fifo_path (some v) = none) := by
  refine ⟨?_, rfl, ?_, ?_⟩
  · intro v sock hname hsuf
    simp only [build_attach_request_fifo_path, hname, hsuf, if_true]
  · intro v sock hname hsuf
    simp only [build_attach_request_fifo_path, hname, hsuf, Bool.false_eq_true, if_false]
  · intro v hname
    simp only [build_attach_request_fifo_path, hname]

/-- Witness for C9 at a concrete socket path, a concrete non-.sock path and a
concrete path without a basename. -/
theorem build_attach_request_fifo_path_spec_witness :
    build_attach_request_fifo_path (some "/run/user/1000/vscode-git-1b2c.sock") =
      some "/tmp/dbgee-vscode-debuggee-for-vscode-git-1b2c" ∧
    build_attach_request_fifo_path none = none ∧
    build_attach_request_fifo_path (some "/run/user/1000/vscode-ipc") = none ∧
    build_attach_request_fifo_path (some "/..") = none := by
  refine ⟨?_, build_attach_request_fifo_path_spec.2.1, ?_, ?_⟩
  · have h := build_attach_request_fifo_path_spec.1 "/run/user/1000/vscode-git-1b2c.sock"
      ("vscode-git-1b2c.sock".data) (by decide) (by decide)
    rw [h]
    decide
  · exact build_attach_request_fifo_path_spec.2.2.1 "/run/user/1000/vscode-ipc"
      ("vscode-ipc".data) (by decide) (by decide)
  · exact build_attach_request_fifo_path_spec.2.2.2 "/.." (by decide)

/-! ### C7: debugger auto-detection (lib.rs detect_debugger / build_debugger) -/

/-- The external system state debugger construction and support probing read:
which commands are on PATH, the cached stdout of "file <path>" and of
"go version <path>" (errors model failed command spawns), whether "import
debugpy" succeeds for a given python command, and the file system used by the
shim check. -/
structure SysEnv where
  path_has_command : String → Bool
  file_output : String → Except DbgErr String
  go_version_output : String → Except DbgErr String
  debugpy_import_ok : String → Bool
  fs : Fs

/-- file_helper.rs command_exists: some PATH entry holds the command. -/
def command_exists (env : SysEnv) (c : String) : Bool := env.path_has_command c

/-- Rust str::contains for string patterns. -/
def containsSub (pat : List Char) : List Char → Bool
  | [] => pat.isPrefixOf []
  | c :: rest => if pat.isPrefixOf (c :: rest) then true else containsSub pat rest

/-- s.contains(sub) on strings. -/
def strContains (s sub : String) : Bool := containsSub sub.data s.data

/-- Whether the regex go(\backslash d+\.?)+ of debugger.rs matches: it does
exactly when the text contains "go" immediately followed by a decimal
digit. -/
def hasGoVersion : List Char → Bool
  | c1 :: c2 :: c3 :: rest =>
    (c1 = 'g' && c2 = 'o' && c3.isDigit) || hasGoVersion (c2 :: c3 :: rest)
  | _ => false

/-- GdbCompatibleDebugger::is_debuggee_surely_supported, debugger.rs lines
169-178: ELF or Mach-O in the file output, recursing through the -original
sibling when the file is a shell script recognized as a shim.  The Rust
recursion is unbounded in the path name; the fuel parameter bounds the chain
of -original suffixes considered. -/
def gdb_is_debuggee_surely_supported (env : SysEnv) :
    Nat → String → Except DbgErr Bool
  | 0, _ => Except.error (DbgErr.osFailure "shim recursion limit")
  | Nat.succ fuel, debuggee =>
    match env.file_output debuggee with
    | Except.error e => Except.error e
    | Except.ok out =>
      if strContains out "ELF" || strContains out "Mach-O" then Except.ok true
      else if strContains out "shell" && check_if_wrapped env.fs debuggee then
        gdb_is_debuggee_surely_supported env fuel (get_debuggee_backup_name debuggee)
      else Except.ok false

/-- DelveDebugger::is_debuggee_surely_supported, lines 255-271: "Go " in the
file output, or a go-version match on "go version", with the same shim
recursion. -/
def delve_is_debuggee_surely_supported (env : SysEnv) :
    Nat → String → Except DbgErr Bool
  | 0, _ => Except.error (DbgErr.osFailure "shim recursion limit")
  | Nat.succ fuel, debuggee =>
    match env.file_output debuggee with
    | Except.error e => Except.error e
    | Except.ok out =>
      if strContains out "Go " then Except.ok true
      else if (match env.go_version_output debuggee with
               | Except.ok gover => hasGoVersion gover.data
               | Except.error _ => false) then Except.ok true
      else if strContains out "shell" && check_if_wrapped env.fs debuggee then
        delve_is_debuggee_surely_supported env fuel (get_debuggee_backup_name debuggee)
      else Except.ok false

/-- PythonDebugger::is_debuggee_surely_supported, lines 404-410. -/
def python_is_debuggee_surely_supported (env : SysEnv) (debuggee : String) :
    Except DbgErr Bool :=
  match env.file_output debuggee with
  | Except.error e => Except.error e
  | Except.ok out => Except.ok (strContains out "Python")

/-- GdbDebugger::build, lines 53-65 with GdbCompatibleDebugger::new: require
gdb on PATH. -/
def GdbDebugger_build (env : SysEnv) : Except DbgErr GdbCompatibleDebugger :=
  if command_exists env "gdb" then
    Except.ok ⟨"gdb", none, none, gdb_command_builder⟩
  else Except.error (DbgErr.backendMissing "gdb is not in PATH. Did you install gdb?")

/-- LldbDebugger::build, lines 69-79. -/
def LldbDebugger_build (env : SysEnv) : Except DbgErr GdbCompatibleDebugger :=
  if command_exists env "lldb" then
    Except.ok ⟨"lldb", none, none, lldb_command_builder⟩
  else Except.error (DbgErr.backendMissing "lldb is not in PATH. Did you install lldb?")

/-- DelveDebugger::new, lines 185-192. -/
def DelveDebugger_new (env : SysEnv) : Except DbgErr DelveDebugger :=
  if command_exists env "dlv" then Except.ok ⟨none⟩
  else Except.error (DbgErr.backendMissing "dlv is not in PATH. Did you install delve?")

/-- PythonDebugger::new, lines 326-349: python3, else python, else fail; then
require the debugpy import to succeed. -/
def PythonDebugger_new (env : SysEnv) : Except DbgErr PythonDebugger :=
  match (if command_exists env "python3" then some "python3"
         else if command_exists env "python" then some "python" else none) with
  | none =>
    Except.error (DbgErr.backendMissing "Neither python3 nor python exist. Did you install python?")
  | some py =>
    if env.debugpy_import_ok py then Except.ok ⟨py, none⟩
    else Except.error
      (DbgErr.backendMissing "debugpy module is not installed. Please install debugpy via pip.")

/-- lib.rs DebuggerOptValues. -/
inductive DebuggerOptValues where
  | Gdb
  | Lldb
  | Dlv
  | StopAndWritePid
  | Debugpy
deriving DecidableEq

/-- A constructed adapter of any variant (the Box dyn Debugger). -/
inductive AnyDebugger where
  | gdbCompatible (d : GdbCompatibleDebugger)
  | delve (d : DelveDebugger)
  | stopAndWritePid (d : StopAndWritePidDebugger)
  | python (d : PythonDebugger)

/-- lib.rs build_debugger restricted to an explicit selector, lines 262-268. -/
def build_debugger_explicit (env : SysEnv) : DebuggerOptValues → Except DbgErr AnyDebugger
  | DebuggerOptValues.Gdb => (GdbDebugger_build env).map AnyDebugger.gdbCompatible
  | DebuggerOptValues.Lldb => (LldbDebugger_build env).map AnyDebugger.gdbCompatible
  | DebuggerOptValues.Dlv => (DelveDebugger_new env).map AnyDebugger.delve
  | DebuggerOptValues.StopAndWritePid =>
    Except.ok (AnyDebugger.stopAndWritePid ⟨⟩)
  | DebuggerOptValues.Debugpy => (PythonDebugger_new env).map AnyDebugger.python

/-- Dynamic dispatch of is_debuggee_surely_supported
(StopAndWritePidDebugger answers true unconditionally, lines 315-317). -/
def AnyDebugger.is_debuggee_surely_supported (env : SysEnv) (fuel : Nat) :
    AnyDebugger → String → Except DbgErr Bool
  | AnyDebugger.gdbCompatible _, debuggee => gdb_is_debuggee_surely_supported env fuel debuggee
  | AnyDebugger.delve _, debuggee => delve_is_debuggee_surely_supported env fuel debuggee
  | AnyDebugger.stopAndWritePid _, _ => Except.ok true
  | AnyDebugger.python _, debuggee => python_is_debuggee_surely_supported env debuggee

/-- The ordered candidate list of detect_debugger, lines 275-282: Delve, then
gdb on Linux / lldb on macOS, then debugpy, then StopAndWritePid. -/
def detect_debugger_candidates (linux : Bool) : List DebuggerOptValues :=
  if linux then
    [DebuggerOptValues.Dlv, DebuggerOptValues.Gdb, DebuggerOptValues.Debugpy,
      DebuggerOptValues.StopAndWritePid]
  else
    [DebuggerOptValues.Dlv, DebuggerOptValues.Lldb, DebuggerOptValues.Debugpy,
      DebuggerOptValues.StopAndWritePid]

/-- The loop body of detect_debugger, lines 283-293: skip candidates whose
construction fails, return the first whose support probe answers Ok(true)
(an Ok(false) or erroring probe also skips), and fail once the list is
exhausted. -/
def detect_debugger_go (env : SysEnv) (fuel : Nat) (debuggee : String) :
    List DebuggerOptValues → Except DbgErr AnyDebugger
  | [] =>
    Except.error
      (DbgErr.userInput "Could not automatically detect the proper debugger for the given debuggee")
  | k :: rest =>
    match build_debugger_explicit env k with
    | Except.error _ => detect_debugger_go env fuel debuggee rest
    | Except.ok cand =>
      match cand.is_debuggee_surely_supported env fuel debuggee with
      | Except.ok true => Except.ok cand
      | _ => detect_debugger_go env fuel debuggee rest

/-- lib.rs detect_debugger. -/
def detect_debugger (linux : Bool) (env : SysEnv) (fuel : Nat) (debuggee : String) :
    Except DbgErr AnyDebugger :=
  detect_debugger_go env fuel debuggee (detect_debugger_candidates linux)

/-- lib.rs build_debugger, lines 256-270: an explicit selector builds that
adapter, no selector runs auto-detection. -/
def build_debugger (linux : Bool) (env : SysEnv) (fuel : Nat)
    (sel : Option DebuggerOptValues) (debuggee : String) : Except DbgErr AnyDebugger :=
  match sel with
  | none => detect_debugger linux env fuel debuggee
  | some k => build_debugger_explicit env k

/-- The claim-side predicate: a candidate matches when its adapter constructs
successfully and its support probe answers true. -/
def candidate_matches (env : SysEnv) (fuel : Nat) (debuggee : String)
    (k : DebuggerOptValues) : Bool :=
  match build_debugger_explicit env k with
  | Except.error _ => false
  | Except.ok cand =>
    match cand.is_debuggee_surely_supported env fuel debuggee with
    | Except.ok true => true
    | _ => false

theorem detect_debugger_go_first_match (env : SysEnv) (fuel : Nat) (debuggee : String)
    (l : List DebuggerOptValues) :
    detect_debugger_go env fuel debuggee l =
      match l.find? (candidate_matches env fuel debuggee) with
      | some k => build_debugger_explicit env k
      | none =>
        Except.error
          (DbgErr.userInput
            "Could not automatically detect the proper debugger for the given debuggee") := by
  induction l with
  | nil => rfl
  | cons k rest ih =>
    cases hb : build_debugger_explicit env k with
    | error e =>
      have hm : candidate_matches env fuel debuggee k = false := by
        simp only [candidate_matches, hb]
      simp only [detect_debugger_go, hb, List.find?_cons, hm, ih]
    | ok cand =>
      cases hs : cand.is_debuggee_surely_supported env fuel debuggee with
      | error e =>
        have hm : candidate_matches env fuel debuggee k = false := by
          simp only [candidate_matches, hb, hs]
        simp only [detect_debugger_go, hb, hs, List.find?_cons, hm, ih]
      | ok b =>
        cases b with
        | true =>
          have hm : candidate_matches env fuel debuggee k = true := by
            simp only [candidate_matches, hb, hs]
          simp only [detect_debugger_go, hb, hs, List.find?_cons, hm]
        | false =>
          have hm : candidate_matches env fuel debuggee k = false := by
            simp only [candidate_matches, hb, hs]
          simp only [detect_debugger_go, hb, hs, List.find?_cons, hm, ih]

/-- C7: with no explicit selector, build_debugger runs auto-detection over
the platform-ordered candidate list Delve, gdb-or-lldb, debugpy,
StopAndWritePid; it returns the constructed adapter of the first candidate
that both constructs successfully and answers true to the support probe, and
errors exactly when no candidate matches. -/
theorem detect_debugger_first_match (linux : Bool) (env : SysEnv) (fuel : Nat)
    (debuggee : String) :
    build_debugger linux env fuel none debuggee =
      match (detect_debugger_candidates linux).find? (candidate_matches env fuel debuggee) with
      | some k => build_debugger_explicit env k
      | none =>
        Except.error
          (DbgErr.userInput
            "Could not automatically detect the proper debugger for the given debuggee") :=
  detect_debugger_go_first_match env fuel debuggee (detect_debugger_candidates linux)

end Dbgee
